import Mathlib

/-!
Verification development for the Bakery daemon (pies, slices, port
allocation, slice orchestration, control API, router proxy).

Shallow embedding: each definition below is translated from the
corresponding TypeScript source file, noted in its doc comment.
Strings are treated as sequences of characters with ASCII case mapping;
machine integers are modelled as Nat (all ports and counts in the source
are small non-negative integers). Database uniqueness constraints and
transaction rollback are made explicit in the repository operations.
-/

namespace Bakery

/-! ## Slug derivation
From src/packages/daemon/src/services/pieHandlers.ts, slugifyPieName
(lines 22-28); src/packages/daemon/src/services/orchestrator.ts carries an
identical private copy named slugify (lines 17-23). -/

/-- Character class of the regex [a-z0-9]. -/
def isSlugChar (c : Char) : Bool :=
  c.isLower || c.isDigit

/-- JS String.prototype.toLowerCase restricted to ASCII, applied
characterwise (Char.toLower maps A-Z to a-z and fixes everything else). -/
def lowerChars (s : List Char) : List Char :=
  s.map Char.toLower

/-- Global regex replace of every maximal run of characters outside
[a-z0-9] by a single dash: the flag records whether the previous
character was part of such a run. -/
def collapseRuns : Bool → List Char → List Char
  | _, [] => []
  | inRun, c :: rest =>
      if isSlugChar c then c :: collapseRuns false rest
      else if inRun then collapseRuns true rest
      else '-' :: collapseRuns true rest

/-- Global regex replace of the leading and the trailing run of dashes by
the empty string. -/
def trimDashes (s : List Char) : List Char :=
  ((s.dropWhile (fun c => c == '-')).reverse.dropWhile (fun c => c == '-')).reverse

/-- slugifyPieName: lowercase, replace non-alphanumeric runs with dashes,
trim dashes, truncate to 32 characters. -/
def slugifyPieName (name : String) : String :=
  String.mk (List.take 32 (trimDashes (collapseRuns false (lowerChars name.data))))


/-! ## Data model
Row types follow the SQLite schema in src/packages/daemon/src/db.ts
(tables pies, slices, slice_resources, audit_log) and the repository
class BakeryRepository in the same file. The slices table of that
repository still carries worktree_path and branch columns. The audit
payload JSON is modelled as an opaque string. -/

inductive SliceStatus
  | creating
  | running
  | stopped
  | err
  deriving DecidableEq, Repr

inductive Protocol
  | http
  | tcp
  | udp
  deriving DecidableEq, Repr

inductive Expose
  | primary
  | subdomain
  | none
  deriving DecidableEq, Repr

structure PieRow where
  id : String
  name : String
  slug : String
  repoPath : Option String
  createdAt : String
  deriving DecidableEq, Repr

structure SliceRow where
  id : String
  pieId : String
  ordinal : Nat
  host : String
  worktreePath : String
  branch : String
  status : SliceStatus
  createdAt : String
  stoppedAt : Option String
  deriving DecidableEq, Repr

structure ResourceRow where
  id : String
  sliceId : String
  key : String
  port : Nat
  protocol : Protocol
  expose : Expose
  routeHost : Option String
  isPrimaryHttp : Bool
  createdAt : String
  deriving DecidableEq, Repr

structure AuditRow where
  id : String
  pieId : Option String
  sliceId : Option String
  kind : String
  payloadJson : String
  createdAt : String
  deriving DecidableEq, Repr

/-- The persisted Store state: the four tables of db.ts. -/
structure Store where
  pies : List PieRow
  slices : List SliceRow
  resources : List ResourceRow
  audits : List AuditRow
  deriving DecidableEq, Repr

/-! ## Repository operations
From BakeryRepository in src/packages/daemon/src/db.ts. Uniqueness
constraints of the schema (UNIQUE columns and pairs) are enforced
explicitly; a violated constraint makes the statement fail and, for the
multi-row addSliceResources, rolls the whole batch back. -/

/-- findPieByIdOrSlug: SELECT with WHERE id = x OR slug = x LIMIT 1. -/
def findPieByIdOrSlug (st : Store) (identifier : String) : Option PieRow :=
  st.pies.find? (fun p => p.id == identifier || p.slug == identifier)

/-- getNextSliceOrdinal: COALESCE(MAX(ordinal), 0) + 1 over the slices of
the pie. -/
def getNextSliceOrdinal (st : Store) (pieId : String) : Nat :=
  ((st.slices.filter (fun s => s.pieId == pieId)).map (fun s => s.ordinal)).foldr max 0 + 1

/-- getAllocatedPorts: SELECT port FROM slice_resources. -/
def getAllocatedPorts (st : Store) : List Nat :=
  st.resources.map (fun r => r.port)

/-- createSlice: single INSERT INTO slices; fails on the UNIQUE host
column or the UNIQUE (pie_id, ordinal) pair, leaving the Store
unchanged. The fresh id and the current timestamp are passed in. -/
def repoCreateSlice (st : Store) (pieId : String) (ordinal : Nat) (host : String)
    (worktreePath : String) (branch : String) (status : SliceStatus)
    (newId : String) (now : String) : Except String (SliceRow × Store) :=
  if st.slices.any (fun s => s.host == host) then
    .error ("UNIQUE constraint failed: slices.host")
  else if st.slices.any (fun s => s.pieId == pieId && s.ordinal == ordinal) then
    .error ("UNIQUE constraint failed: slices.pie_id, slices.ordinal")
  else
    let row : SliceRow :=
      { id := newId, pieId := pieId, ordinal := ordinal, host := host,
        worktreePath := worktreePath, branch := branch, status := status,
        createdAt := now, stoppedAt := Option.none }
    .ok (row, { st with slices := st.slices ++ [row] })

/-- The SET clause of updateSliceStatus applied to one slices row: the
status is overwritten and stopped_at becomes the current time when the
new status is stopped, else NULL. -/
def setSliceStatusRow (sliceId : String) (status : SliceStatus) (now : String)
    (s : SliceRow) : SliceRow :=
  if s.id == sliceId then
    { s with status := status,
             stoppedAt := if status = SliceStatus.stopped then some now else Option.none }
  else s

/-- updateSliceStatus: UPDATE slices SET status, stopped_at WHERE id. -/
def updateSliceStatus (st : Store) (sliceId : String) (status : SliceStatus)
    (now : String) : Store :=
  { st with slices := st.slices.map (setSliceStatusRow sliceId status now) }

/-- deleteSlice: DELETE FROM slices WHERE id; ON DELETE CASCADE removes
the resources of the slice. -/
def deleteSlice (st : Store) (sliceId : String) : Store :=
  { st with
    slices := st.slices.filter (fun s => !(s.id == sliceId)),
    resources := st.resources.filter (fun r => !(r.sliceId == sliceId)) }

/-- appendAuditLog: INSERT INTO audit_log. -/
def appendAuditLog (st : Store) (kind : String) (pieId : Option String)
    (sliceId : Option String) (payloadJson : String) (newId : String) (now : String) : Store :=
  { st with
    audits := st.audits ++
      [{ id := newId, pieId := pieId, sliceId := sliceId, kind := kind,
         payloadJson := payloadJson, createdAt := now }] }

/-- One resource record of the addSliceResources batch
(SliceResourceInput in db.ts). -/
structure SliceResourceInput where
  key : String
  port : Nat
  protocol : Protocol
  expose : Expose
  routeHost : Option String
  isPrimaryHttp : Bool
  deriving DecidableEq, Repr

/-- One INSERT of the addSliceResources batch, checked against the
UNIQUE (slice_id, key) pair, the UNIQUE port column and the UNIQUE
route_host column (NULL route hosts never collide). -/
def insertResource (rows : List ResourceRow) (sliceId : String)
    (rec : SliceResourceInput) (newId : String) (now : String) :
    Except String (List ResourceRow) :=
  if rows.any (fun r => r.sliceId == sliceId && r.key == rec.key) then
    .error ("UNIQUE constraint failed: slice_resources.slice_id, slice_resources.key")
  else if rows.any (fun r => r.port == rec.port) then
    .error ("UNIQUE constraint failed: slice_resources.port")
  else if rec.routeHost.isSome && rows.any (fun r => r.routeHost == rec.routeHost) then
    .error ("UNIQUE constraint failed: slice_resources.route_host")
  else
    .ok (rows ++
      [{ id := newId, sliceId := sliceId, key := rec.key, port := rec.port,
         protocol := rec.protocol, expose := rec.expose, routeHost := rec.routeHost,
         isPrimaryHttp := rec.isPrimaryHttp, createdAt := now }])

/-- The loop body of the addSliceResources transaction over the pending
record list, consuming one fresh id per record. -/
def insertResourcesLoop (sliceId : String) (now : String) :
    List ResourceRow → List SliceResourceInput → List String → Except String (List ResourceRow)
  | rows, [], _ => .ok rows
  | rows, rec :: rest, ids =>
      match insertResource rows sliceId rec (ids.headD ("")) now with
      | .error e => .error e
      | .ok rows2 => insertResourcesLoop sliceId now rows2 rest ids.tail

/-- addSliceResources: all records inserted in one transaction; any
constraint violation rolls the whole batch back, leaving the Store
unchanged. -/
def addSliceResources (st : Store) (sliceId : String)
    (records : List SliceResourceInput) (ids : List String) (now : String) :
    Except String Store :=
  match insertResourcesLoop sliceId now st.resources records ids with
  | .error e => .error e
  | .ok rows => .ok { st with resources := rows }

/-! ## Port allocator
From PortAllocator.allocateMany in src/unnamed/part_004. The runtime
bind-and-release probe is a parameter (Nat to Bool), exactly the
constructor injection point of the source class. -/

/-- The exhaustion error message of the source, with the count spliced
in. -/
def exhaustMsg (count : Nat) : String :=
  ("Unable to allocate ") ++ Nat.repr count ++ (" free ports in configured range")

/-- The candidate walk of allocateMany: ports ascend from the current
candidate to rangeEnd; reserved candidates are skipped, probed-free
candidates are added to both the exclusion set and the result, and the
loop returns as soon as count ports are collected. Falling off the end
of the range raises the exhaustion error. The first argument counts the
candidates still ahead (rangeEnd + 1 - port), making the bounded for
loop a structural recursion. -/
def allocAux (probe : Nat → Bool) (count : Nat) :
    Nat → Nat → List Nat → List Nat → Except String (List Nat)
  | 0, _, _, _ => .error (exhaustMsg count)
  | remaining + 1, port, reserved, acc =>
      if reserved.contains port then
        allocAux probe count remaining (port + 1) reserved acc
      else if probe port then
        if (acc ++ [port]).length = count then .ok (acc ++ [port])
        else allocAux probe count remaining (port + 1) (port :: reserved) (acc ++ [port])
      else
        allocAux probe count remaining (port + 1) reserved acc

/-- allocateMany(count, existingPorts): count must be a positive integer
(count is a Nat here, so only zero can violate that), then the range
from rangeStart to rangeEnd inclusive is walked. -/
def allocateMany (rangeStart rangeEnd : Nat) (probe : Nat → Bool) (count : Nat)
    (existing : List Nat) : Except String (List Nat) :=
  if count = 0 then .error ("count must be a positive integer")
  else allocAux probe count (rangeEnd + 1 - rangeStart) rangeStart existing []



/-! ## Slice orchestrator
From SliceOrchestrator in src/packages/daemon/src/services/orchestrator.ts.
Fresh row ids and the current timestamp are threaded as parameters; the
router port provider has already been resolved to its value. -/

/-- One requested resource (CreateSliceResource). -/
structure CreateRes where
  key : String
  protocol : Protocol
  expose : Expose
  deriving DecidableEq, Repr

/-- One resource of the orchestrator result (SliceResource on the wire). -/
structure ResourceOut where
  key : String
  protocol : Protocol
  expose : Expose
  allocatedPort : Nat
  routeHost : Option String
  routeUrl : Option String
  deriving DecidableEq, Repr

/-- buildRouteUrl (orchestrator.ts lines 25-28): the port suffix appears
unless the router port is 80 or 443. -/
def buildRouteUrl (host : String) (routerPort : Nat) : String :=
  ("http://") ++ host ++
    (if routerPort ≠ 80 ∧ routerPort ≠ 443 then (":") ++ Nat.repr routerPort else (""))

/-- The route host assignment of createSlice (orchestrator.ts lines
62-69): only http resources get one, the slice host for primary and
key dot host for subdomain. -/
def routeHostFor (host key : String) (protocol : Protocol) (expose : Expose) :
    Option String :=
  if protocol = Protocol.http then
    if expose = Expose.primary then some host
    else if expose = Expose.subdomain then some (key ++ (".") ++ host)
    else Option.none
  else Option.none

/-- JS truthiness of the optional routeHost string in the object spread
(orchestrator.ts line 76): undefined and the empty string are falsy. -/
def truthy : Option String → Bool
  | Option.none => false
  | some s => !(s == "")

/-- The per-resource mapping of createSlice (orchestrator.ts lines
56-78), producing the returned resource. -/
def assignResource (host : String) (routerPort : Nat) (r : CreateRes)
    (allocatedPort : Nat) : ResourceOut :=
  let rh := routeHostFor host r.key r.protocol r.expose
  if truthy rh then
    { key := r.key, protocol := r.protocol, expose := r.expose,
      allocatedPort := allocatedPort, routeHost := rh,
      routeUrl := rh.map (fun h => buildRouteUrl h routerPort) }
  else
    { key := r.key, protocol := r.protocol, expose := r.expose,
      allocatedPort := allocatedPort, routeHost := Option.none, routeUrl := Option.none }

/-- Pairing each requested resource with its allocated port in input
order; a missing port raises the internal failure of line 59. -/
def assignAll (host : String) (routerPort : Nat) :
    List CreateRes → List Nat → Except String (List ResourceOut)
  | [], _ => .ok []
  | _ :: _, [] => .error ("Internal port allocation failure")
  | r :: rs, p :: ps =>
      match assignAll host routerPort rs ps with
      | .error e => .error e
      | .ok rest => .ok (assignResource host routerPort r p :: rest)

/-- The persisted shape of a returned resource (orchestrator.ts lines
80-90): the routeHost spread uses the same truthiness, and
isPrimaryHttp is derived from protocol and expose. -/
def toResourceInput (r : ResourceOut) : SliceResourceInput :=
  { key := r.key, port := r.allocatedPort, protocol := r.protocol,
    expose := r.expose,
    routeHost := if truthy r.routeHost then r.routeHost else Option.none,
    isPrimaryHttp := r.protocol = Protocol.http && r.expose = Expose.primary }

/-- The slice host synthesized at orchestrator.ts line 42. -/
def mkHost (pieSlug : String) (ordinal : Nat) (hostSuffix : String) : String :=
  slugifyPieName pieSlug ++ ("-s") ++ Nat.repr ordinal ++ (".") ++ hostSuffix

/-- The orchestrator result (OrchestratedSlice less the fields of the
slice row itself). -/
structure OrchOut where
  slice : SliceRow
  resources : List ResourceOut
  pieSlug : String
  routerPort : Nat
  deriving DecidableEq, Repr

/-- createSlice (orchestrator.ts lines 40-98). The pair returned is the
call outcome together with the Store state left behind: there is no
transaction enclosing the whole method, so the slice row INSERT of step
four survives a later addSliceResources failure. -/
def orchCreateSlice (st : Store) (pie : PieRow) (worktreePath branch : String)
    (resources : List CreateRes) (hostSuffix : String) (routerPort : Nat)
    (rangeStart rangeEnd : Nat) (probe : Nat → Bool)
    (sliceId : String) (resourceIds : List String) (now : String) :
    Except String OrchOut × Store :=
  let ordinal := getNextSliceOrdinal st pie.id
  let host := mkHost pie.slug ordinal hostSuffix
  match allocateMany rangeStart rangeEnd probe resources.length (getAllocatedPorts st) with
  | .error e => (.error e, st)
  | .ok ports =>
    match repoCreateSlice st pie.id ordinal host worktreePath branch
        SliceStatus.running sliceId now with
    | .error e => (.error e, st)
    | .ok (slice, st1) =>
      match assignAll host routerPort resources ports with
      | .error e => (.error e, st1)
      | .ok assigned =>
        match addSliceResources st1 slice.id (assigned.map toResourceInput)
            resourceIds now with
        | .error e => (.error e, st1)
        | .ok st2 =>
          (.ok { slice := slice, resources := assigned, pieSlug := pie.slug,
                 routerPort := routerPort }, st2)

/-- stopSlice (orchestrator.ts lines 100-102): a single
updateSliceStatus to stopped. -/
def stopSlice (st : Store) (sliceId : String) (now : String) : Store :=
  updateSliceStatus st sliceId SliceStatus.stopped now

/-- removeSlice (orchestrator.ts lines 104-106). -/
def removeSlice (st : Store) (sliceId : String) : Store :=
  deleteSlice st sliceId

/-! ## Create-slice request validation
From CreateSliceRequestSchema in src/packages/shared/src/schemas.ts
(lines 70-97). A raw request body is modelled with every field optional
so that missing fields are representable; the parse function applies
the field constraints and the superRefine checks. -/

/-- The regex of CreateSliceResourceSchema together with its length
bounds: first character in [a-z0-9], the rest in [a-z0-9-], length
between 1 and 64. -/
def validKey (s : String) : Bool :=
  match s.data with
  | [] => false
  | c :: rest =>
      isSlugChar c && rest.all (fun d => isSlugChar d || d == '-') && s.length ≤ 64

/-- A raw request body for POST v1 slices: only the fields the schema
reads, each possibly absent. Resource entries are taken already
well-typed in protocol and expose, matching the enum schemas. -/
structure RawCreateSliceRequest where
  pieId : Option String
  worktreePath : Option String
  branch : Option String
  resources : Option (List CreateRes)
  deriving DecidableEq, Repr

/-- The parsed payload: branch has been defaulted. -/
structure CreateSlicePayload where
  pieId : String
  worktreePath : String
  branch : String
  resources : List CreateRes
  deriving DecidableEq, Repr

/-- Number of resources with protocol http and expose primary, counted
by the superRefine of the schema. -/
def countPrimaryHttp (rs : List CreateRes) : Nat :=
  (rs.filter (fun r => r.protocol == Protocol.http && r.expose == Expose.primary)).length

/-- CreateSliceRequestSchema.parse: pieId and worktreePath are required
non-empty strings, branch is optional with default main, resources is a
required non-empty array of valid CreateSliceResource entries, keys are
unique within the request, and at most one resource is http primary. -/
def parseCreateSliceRequest (r : RawCreateSliceRequest) :
    Except String CreateSlicePayload :=
  match r.pieId with
  | Option.none => .error ("pieId: Required")
  | some pid =>
    if pid.length = 0 then .error ("pieId: too small") else
    match r.worktreePath with
    | Option.none => .error ("worktreePath: Required")
    | some w =>
      if w.length = 0 then .error ("worktreePath: too small") else
      let branch := r.branch.getD ("main")
      if branch.length = 0 then .error ("branch: too small") else
      match r.resources with
      | Option.none => .error ("resources: Required")
      | some rs =>
        if rs.length = 0 then .error ("resources: too small") else
        if !(rs.all (fun x => validKey x.key)) then
          .error ("resource key must be lowercase alphanumeric with optional dashes")
        else if !((rs.map (fun x => x.key)).Nodup : Bool) then
          .error ("duplicate resource key")
        else if 1 < countPrimaryHttp rs then
          .error ("at most one http resource can use expose=primary")
        else
          .ok { pieId := pid, worktreePath := w, branch := branch, resources := rs }

/-! ## Slice creation handler and route
From handleCreateSlice in
src/packages/daemon/src/services/sliceHandlers.ts (lines 29-58) and the
POST v1 slices route of createDaemon in src/unnamed/part_007 (lines
224-238). The resolveUserPath helper depends on the home directory, so
it is passed in as a function. -/

/-- handleCreateSlice: parse, look the pie up, run the orchestrator,
append the slice.created audit row. The Store is returned alongside the
outcome because a failing orchestrator call can leave writes behind. -/
def handleCreateSlice (resolve : String → String) (raw : RawCreateSliceRequest)
    (st : Store) (hostSuffix : String) (routerPort : Nat)
    (rangeStart rangeEnd : Nat) (probe : Nat → Bool)
    (sliceId : String) (resourceIds : List String) (auditId : String) (now : String) :
    Except String OrchOut × Store :=
  match parseCreateSliceRequest raw with
  | .error e => (.error e, st)
  | .ok payload =>
    match findPieByIdOrSlug st payload.pieId with
    | Option.none => (.error ("Pie not found"), st)
    | some pie =>
      match orchCreateSlice st pie (resolve payload.worktreePath) payload.branch
          payload.resources hostSuffix routerPort rangeStart rangeEnd probe
          sliceId resourceIds now with
      | (.error e, st1) => (.error e, st1)
      | (.ok created, st1) =>
          (.ok created,
           appendAuditLog st1 ("slice.created") (some pie.id) (some created.slice.id)
             ("slice.created payload") auditId now)

/-- The HTTP status the POST v1 slices route answers with: 201 on
success, 404 for a missing pie, 400 for every other error. -/
def postSlicesStatus (result : Except String OrchOut) : Nat :=
  match result with
  | .ok _ => 201
  | .error e => if e = ("Pie not found") then 404 else 400

/-! ## Pie creation handler and route
From slugifyPieName and handleCreatePie in
src/packages/daemon/src/services/pieHandlers.ts (lines 22-50) and the
POST v1 pies route of createDaemon in src/unnamed/part_007 (lines
207-222): 201 on success, 409 when the thrown message contains the slug
UNIQUE constraint, 400 otherwise. -/

/-- createPie of the repository: INSERT INTO pies, failing on the UNIQUE
slug column. handleCreatePie passes no repoPath, so the column is NULL. -/
def repoCreatePie (st : Store) (name slug : String) (newId now : String) :
    Except String (PieRow × Store) :=
  if st.pies.any (fun p => p.slug == slug) then
    .error ("UNIQUE constraint failed: pies.slug")
  else
    let row : PieRow :=
      { id := newId, name := name, slug := slug, repoPath := Option.none, createdAt := now }
    .ok (row, { st with pies := st.pies ++ [row] })

/-- handleCreatePie: parse the body (name required non-empty), derive
the slug, reject an empty derivation, insert, audit. -/
def handleCreatePie (rawName : Option String) (st : Store)
    (newId auditId now : String) : Except String PieRow × Store :=
  match rawName with
  | Option.none => (.error ("name: Required"), st)
  | some name =>
    if name.length = 0 then (.error ("name: too small"), st) else
    let slug := slugifyPieName name
    if slug.length = 0 then
      (.error ("Pie name must include at least one alphanumeric character"), st)
    else
      match repoCreatePie st name slug newId now with
      | .error e => (.error e, st)
      | .ok (pie, st1) =>
          (.ok pie,
           appendAuditLog st1 ("pie.created") (some pie.id) Option.none
             ("pie.created payload") auditId now)

/-- The HTTP status of the POST v1 pies route. -/
def postPiesStatus (result : Except String PieRow) : Nat :=
  match result with
  | .ok _ => 201
  | .error e => if e = ("UNIQUE constraint failed: pies.slug") then 409 else 400

/-! ## Control API route table
The express routes registered by createDaemon in src/unnamed/part_007
(lines 148-312), in registration order. A request whose method and path
match no registered route falls through to the express default
behaviour, a 404 response. -/

inductive Method
  | get
  | post
  | delete
  deriving DecidableEq, Repr

/-- One express path segment pattern: a literal or a named parameter. -/
inductive Seg
  | lit (s : String)
  | param
  deriving DecidableEq, Repr

/-- The routes mounted on the express app by createDaemon, in source
order. -/
def daemonRoutes : List (Method × List Seg) :=
  [ (Method.get, [Seg.lit ("v1"), Seg.lit ("health")]),
    (Method.get, [Seg.lit ("v1"), Seg.lit ("status")]),
    (Method.get, [Seg.lit ("v1"), Seg.lit ("pies")]),
    (Method.post, [Seg.lit ("v1"), Seg.lit ("pies")]),
    (Method.post, [Seg.lit ("v1"), Seg.lit ("slices")]),
    (Method.get, [Seg.lit ("v1"), Seg.lit ("slices")]),
    (Method.post, [Seg.lit ("v1"), Seg.lit ("slices"), Seg.param, Seg.lit ("stop")]),
    (Method.delete, [Seg.lit ("v1"), Seg.lit ("slices"), Seg.param]) ]

/-- Express segmentwise path matching against one pattern. -/
def segsMatch : List Seg → List String → Bool
  | [], [] => true
  | Seg.lit s :: pat, seg :: segs => s == seg && segsMatch pat segs
  | Seg.param :: pat, _ :: segs => segsMatch pat segs
  | _, _ => false

/-- Whether some registered route of createDaemon handles the request. -/
def daemonHandles (m : Method) (pathSegs : List String) : Bool :=
  daemonRoutes.any (fun r => r.1 == m && segsMatch r.2 pathSegs)

/-! ## Router proxy forwarded headers
From createRouterProxyServer and its helpers in
src/packages/daemon/src/index.ts (lines 12-124 of the concatenated
file). The variant in src/packages/daemon/src/services/routerProxy.ts
keeps the same normalizeHost. -/

/-- JS String.prototype.split with a one-character separator, on the
character list: the groups between separator occurrences, in order. -/
def splitChars (sep : Char) : List Char → List (List Char)
  | [] => [[]]
  | c :: rest =>
      match splitChars sep rest with
      | [] => [[]]
      | g :: gs => if c == sep then [] :: g :: gs else (c :: g) :: gs

/-- JS String.prototype.split for a one-character separator string. -/
def jsSplit (sep : Char) (s : String) : List String :=
  (splitChars sep s.data).map String.mk

/-- JS String.prototype.trim restricted to ASCII whitespace. -/
def jsTrim (s : String) : String :=
  String.mk (((s.data.dropWhile Char.isWhitespace).reverse.dropWhile Char.isWhitespace).reverse)

/-- JS String.prototype.toLowerCase restricted to ASCII. -/
def jsLower (s : String) : String :=
  String.mk (lowerChars s.data)

/-- normalizeHost: the text of the Host header strictly before the
first colon, trimmed and lowercased; empty input normalizes to the
empty string. -/
def normalizeHost (raw : Option String) : String :=
  match raw with
  | Option.none => ("")
  | some h =>
      if h = ("") then ("")
      else jsLower (jsTrim ((jsSplit ':' h).headD ("")))

/-- normalizeForwardedProto: lowercased trimmed first comma-separated
token of the incoming header, with absent or empty falling back to
http. -/
def normalizeForwardedProto (raw : Option String) : String :=
  match raw with
  | Option.none => ("http")
  | some s =>
      let t := jsLower (jsTrim ((jsSplit ',' s).headD ("")))
      if t = ("") then ("http") else t

/-- The regex of parsePortFromHostHeader for the bracketed IPv6 form:
an opening bracket, at least one character that is not a closing
bracket, then a closing bracket, a colon and one or more digits to the
end. Returns the digits. -/
def ipv6PortOf (cs : List Char) : Option String :=
  match cs with
  | '[' :: rest =>
      let inner := rest.takeWhile (fun c => !(c == ']'))
      let rem := rest.dropWhile (fun c => !(c == ']'))
      if inner.isEmpty then Option.none
      else
        match rem with
        | ']' :: ':' :: ds =>
            if !ds.isEmpty && ds.all Char.isDigit then some (String.mk ds) else Option.none
        | _ => Option.none
  | _ => Option.none

/-- parsePortFromHostHeader: trim, try the bracketed IPv6 form, else
require exactly one colon and an all-digit non-empty port after it. -/
def parsePortFromHostHeader (raw : String) : Option String :=
  let h := jsTrim raw
  match ipv6PortOf h.data with
  | some p => some p
  | Option.none =>
      let parts := jsSplit ':' h
      if parts.length - 1 ≠ 1 then Option.none
      else
        let cand := jsTrim ((parts.drop 1).headD (""))
        if !(cand = ("")) && cand.data.all Char.isDigit then some cand else Option.none


/-- The forwarded proto and port headers set on the upstream request
(index.ts lines 104-124), for a request that reached the proxying stage
(so the Host header is present). -/
def buildForwardedHeaders (hostHeader : String) (protoHeader : Option String) :
    String × String :=
  let proto := normalizeForwardedProto protoHeader
  let port :=
    match parsePortFromHostHeader hostHeader with
    | some p => p
    | Option.none => if proto = ("https") then ("443") else ("80")
  (proto, port)

/-- The router proxy response selector (both proxy variants): 400 when
the normalized host is empty, 404 when no route matches it, 503 when
the slice is not running, otherwise the request is forwarded upstream.
Routes are the getHostRoute view keyed by routeHost. -/
inductive ProxyOutcome
  | reject (status : Nat)
  | forward (upstreamPort : Nat)
  deriving DecidableEq, Repr

/-- The derived host-route view of one slice resource. -/
structure HostRoute where
  host : String
  port : Nat
  sliceStatus : SliceStatus
  deriving DecidableEq, Repr

/-- getHostRoute: single-row lookup by exact route host. -/
def getHostRoute (routes : List HostRoute) (host : String) : Option HostRoute :=
  routes.find? (fun r => r.host == host)

/-- The proxy decision for an incoming request with the given raw Host
header. -/
def proxyDecide (routes : List HostRoute) (rawHost : Option String) : ProxyOutcome :=
  let host := normalizeHost rawHost
  if host = ("") then ProxyOutcome.reject 400
  else
    match getHostRoute routes host with
    | Option.none => ProxyOutcome.reject 404
    | some route =>
        if route.sliceStatus ≠ SliceStatus.running then ProxyOutcome.reject 503
        else ProxyOutcome.forward route.port

/-! ## Schema migration
From migrateLegacyPathColumns and createDatabase in
src/packages/daemon/src/db.ts (lines 71-145). The database file is
modelled with its four tables plus flags recording whether the legacy
columns (pies.repo_path, slices.worktree_path and slices.branch) are
present; legacy column values are carried on the rows as options. The
better-sqlite3 transaction wrapping the table re-creation commits when
its body completes; the PRAGMA foreign_key_check runs only afterwards,
on the committed state. Functions return the error raised, if any,
together with the database content left on disk. -/

structure MigPieRow where
  id : String
  slug : String
  repoPath : Option String
  deriving DecidableEq, Repr

structure MigSliceRow where
  id : String
  pieId : String
  worktreePath : Option String
  branch : Option String
  deriving DecidableEq, Repr

structure MigResourceRow where
  id : String
  sliceId : String
  deriving DecidableEq, Repr

structure MigDb where
  piesHasRepoPath : Bool
  slicesHaveLegacyColumns : Bool
  pies : List MigPieRow
  slices : List MigSliceRow
  resources : List MigResourceRow
  deriving DecidableEq, Repr

/-- The transaction body of migrateLegacyPathColumns: re-create pies
without repo_path when that column is present, re-create slices without
worktree_path and branch when either is present, copying the retained
columns forward. -/
def recreateTables (db : MigDb) : MigDb :=
  let db1 :=
    if db.piesHasRepoPath then
      { db with piesHasRepoPath := false,
                pies := db.pies.map (fun p => { p with repoPath := Option.none }) }
    else db
  if db1.slicesHaveLegacyColumns then
    { db1 with slicesHaveLegacyColumns := false,
               slices := db1.slices.map (fun s =>
                 { s with worktreePath := Option.none, branch := Option.none }) }
  else db1

/-- PRAGMA foreign_key_check: rows whose foreign key references a
missing parent (legacy files can hold such rows because SQLite enforces
foreign keys only on connections that opt in). -/
def fkViolations (db : MigDb) : List String :=
  (db.slices.filter (fun s => !(db.pies.any (fun p => p.id == s.pieId)))).map
      (fun s => s.id) ++
    (db.resources.filter (fun r => !(db.slices.any (fun s => s.id == r.sliceId)))).map
      (fun r => r.id)

/-- migrateLegacyPathColumns: nothing happens without legacy columns;
otherwise the re-creation transaction runs and commits, and only then
is referential integrity checked, raising an error that leaves the
committed re-creation in place. -/
def migrateLegacyPathColumns (db : MigDb) : Option String × MigDb :=
  if !db.piesHasRepoPath && !db.slicesHaveLegacyColumns then (Option.none, db)
  else
    let migrated := recreateTables db
    if (fkViolations migrated).length ≠ 0 then
      (some ("Foreign key check failed after schema migration"), migrated)
    else (Option.none, migrated)

/-- createDatabase (db.ts lines 131-145): migrate when the stored
schema version is below the current one; a migration error propagates
before ensureLatestSchema runs or the version is bumped. The Nat in the
state is the user_version pragma. -/
def createDatabase (db : MigDb) (userVersion : Nat) : Option String × (MigDb × Nat) :=
  if userVersion < 2 then
    match migrateLegacyPathColumns db with
    | (some e, db1) => (some e, (db1, userVersion))
    | (Option.none, db1) => (Option.none, (db1, 2))
  else (Option.none, (db, 2))

/-! ## Auxiliary predicates and concrete scenario instances -/

/-- Whether an Except value is an error. -/
def isErr : Except String α → Bool
  | .error _ => true
  | .ok _ => false

/-- A route host is one the orchestrator can synthesize: the routeHostFor
assignment applied to a synthesized slice host. -/
def synthesizedHost (h : String) : Prop :=
  ∃ slug ordinal suffix key protocol expose,
    routeHostFor (mkHost slug ordinal suffix) key protocol expose = some h

/-- A pie row used by the concrete scenarios. -/
def pieMyApp : PieRow :=
  { id := ("p1"), name := ("My App"), slug := ("my-app"),
    repoPath := Option.none, createdAt := ("2026-02-20T00:00:00.000Z") }

/-- A store holding just that pie. -/
def storeMyApp : Store :=
  { pies := [pieMyApp], slices := [], resources := [], audits := [] }

/-- The empty store. -/
def emptyStore : Store :=
  { pies := [], slices := [], resources := [], audits := [] }

/-- C1 counterexample body: exactly pieId and resources, as in the
claim, with the pie existing. -/
def c1rawMissingWorktree : RawCreateSliceRequest :=
  { pieId := some ("p1"), worktreePath := Option.none, branch := Option.none,
    resources := some [{ key := ("r1"), protocol := Protocol.http, expose := Expose.primary }] }

/-- C1 witness body: pieId, worktreePath and resources. -/
def c1rawGood : RawCreateSliceRequest :=
  { pieId := some ("my-app"), worktreePath := some ("/tmp/wt"), branch := Option.none,
    resources :=
      some [{ key := ("r1"), protocol := Protocol.http, expose := Expose.primary },
            { key := ("r2"), protocol := Protocol.tcp, expose := Expose.none }] }

/-- The orchestrator outcome of the C1 witness scenario. -/
def c1created : OrchOut :=
  { slice :=
      { id := ("s1"), pieId := ("p1"), ordinal := 1,
        host := ("my-app-s1.localtest.me"), worktreePath := ("/tmp/wt"),
        branch := ("main"), status := SliceStatus.running,
        createdAt := ("t1"), stoppedAt := Option.none },
    resources :=
      [{ key := ("r1"), protocol := Protocol.http, expose := Expose.primary,
         allocatedPort := 30000, routeHost := some ("my-app-s1.localtest.me"),
         routeUrl := some ("http://my-app-s1.localtest.me:4080") },
       { key := ("r2"), protocol := Protocol.tcp, expose := Expose.none,
         allocatedPort := 30001, routeHost := Option.none, routeUrl := Option.none }],
    pieSlug := ("my-app"), routerPort := 4080 }

/-- The store left by the C1 witness scenario before its audit row. -/
def c1storeAfter : Store :=
  { pies := [pieMyApp],
    slices := [c1created.slice],
    resources :=
      [{ id := ("rid1"), sliceId := ("s1"), key := ("r1"), port := 30000,
         protocol := Protocol.http, expose := Expose.primary,
         routeHost := some ("my-app-s1.localtest.me"), isPrimaryHttp := true,
         createdAt := ("t1") },
       { id := ("rid2"), sliceId := ("s1"), key := ("r2"), port := 30001,
         protocol := Protocol.tcp, expose := Expose.none,
         routeHost := Option.none, isPrimaryHttp := false, createdAt := ("t1") }],
    audits := [] }

/-- C2 counterexample resources: a duplicate key within one call, which
the addSliceResources batch rejects on its second INSERT. -/
def c2dupRes : List CreateRes :=
  [{ key := ("a"), protocol := Protocol.http, expose := Expose.primary },
   { key := ("a"), protocol := Protocol.tcp, expose := Expose.none }]

/-- The C2 counterexample orchestrator call. -/
def c2call : Except String OrchOut × Store :=
  orchCreateSlice storeMyApp pieMyApp ("/tmp/wt") ("main") c2dupRes
    ("localtest.me") 4080 30000 45000 (fun _ => true) ("s1") [("i1"), ("i2")] ("t1")

/-- C7 scenario slice and store. -/
def c7slice : SliceRow :=
  { id := ("s1"), pieId := ("p1"), ordinal := 1,
    host := ("my-app-s1.localtest.me"), worktreePath := ("/tmp/wt"),
    branch := ("main"), status := SliceStatus.running,
    createdAt := ("2026-02-20T00:00:00.000Z"), stoppedAt := Option.none }

def c7store : Store :=
  { pies := [pieMyApp], slices := [c7slice], resources := [], audits := [] }

/-- C9 scenario: a legacy database holding a slice whose pie_id
references no pie (legacy files can hold such rows because SQLite
enforces foreign keys only on connections that opt in). -/
def c9legacyDb : MigDb :=
  { piesHasRepoPath := true, slicesHaveLegacyColumns := true,
    pies := [{ id := ("p1"), slug := ("legacy-pie"), repoPath := some ("/tmp/repo") }],
    slices :=
      [{ id := ("s1"), pieId := ("p1"), worktreePath := some ("/tmp/wt"), branch := some ("main") },
       { id := ("s2"), pieId := ("ghost"), worktreePath := some ("/tmp/wt2"), branch := some ("main") }],
    resources := [] }

/-- C10 scenario: one orchestrator-synthesized route. -/
def c10route : HostRoute :=
  { host := ("my-app-s1.localtest.me"), port := 30000, sliceStatus := SliceStatus.running }

/-- C10 scenario: a route table holding just that route. -/
def c10routes : List HostRoute :=
  [c10route]

/-! ## Theorems -/

theorem dot_mem_mkHost (slug : String) (ordinal : Nat) (suffix : String) :
    '.' ∈ (mkHost slug ordinal suffix).data := by
  simp only [mkHost, String.data_append, List.mem_append]
  left; right
  decide

theorem mkHost_ne_empty (slug : String) (ordinal : Nat) (suffix : String) :
    mkHost slug ordinal suffix ≠ ("") := by
  intro h
  have hd := dot_mem_mkHost slug ordinal suffix
  rw [h] at hd
  simp at hd

theorem mkHost_ne_bracket (slug : String) (ordinal : Nat) (suffix : String) :
    mkHost slug ordinal suffix ≠ ("[") := by
  intro h
  have hd := dot_mem_mkHost slug ordinal suffix
  rw [h] at hd
  simp at hd

theorem subdomainHost_ne_empty (key slug : String) (ordinal : Nat) (suffix : String) :
    key ++ (".") ++ mkHost slug ordinal suffix ≠ ("") := by
  intro h
  have : '.' ∈ (key ++ (".") ++ mkHost slug ordinal suffix).data := by
    simp only [String.data_append, List.mem_append]
    left; right
    decide
  rw [h] at this
  simp at this

theorem subdomainHost_ne_bracket (key slug : String) (ordinal : Nat) (suffix : String) :
    key ++ (".") ++ mkHost slug ordinal suffix ≠ ("[") := by
  intro h
  have : '.' ∈ (key ++ (".") ++ mkHost slug ordinal suffix).data := by
    simp only [String.data_append, List.mem_append]
    left; right
    decide
  rw [h] at this
  simp at this

theorem buildRouteUrl_elides (h : String) (rp : Nat) :
    buildRouteUrl h rp =
      ("http://") ++ h ++ (if rp = 80 ∨ rp = 443 then ("") else (":") ++ Nat.repr rp) := by
  unfold buildRouteUrl
  by_cases h80 : rp = 80 <;> by_cases h443 : rp = 443 <;> simp [h80, h443]

/-- C4: for every resource of a slice-creation request, the returned
resource carries routeHost equal to the slice host for http primary,
key dot host for http subdomain, nothing otherwise; and whenever a
routeHost is present the routeUrl is http colon slash slash routeHost
with the router-port suffix omitted exactly when the router port is 80
or 443. -/
theorem orchestrator_route_host_and_url (slug : String) (ordinal : Nat)
    (suffix key : String) (protocol : Protocol) (expose : Expose)
    (port routerPort : Nat) :
    (assignResource (mkHost slug ordinal suffix) routerPort
        { key := key, protocol := protocol, expose := expose } port).routeHost =
      (if protocol = Protocol.http ∧ expose = Expose.primary then
        some (mkHost slug ordinal suffix)
       else if protocol = Protocol.http ∧ expose = Expose.subdomain then
        some (key ++ (".") ++ mkHost slug ordinal suffix)
       else Option.none) ∧
    (assignResource (mkHost slug ordinal suffix) routerPort
        { key := key, protocol := protocol, expose := expose } port).routeUrl =
      (assignResource (mkHost slug ordinal suffix) routerPort
        { key := key, protocol := protocol, expose := expose } port).routeHost.map
        (fun rh =>
          ("http://") ++ rh ++
            (if routerPort = 80 ∨ routerPort = 443 then ("")
             else (":") ++ Nat.repr routerPort)) := by
  cases protocol <;> cases expose <;>
    simp [assignResource, routeHostFor, truthy, mkHost_ne_empty,
      subdomainHost_ne_empty, buildRouteUrl_elides]

/-- C5: the pie slug derives by lowercasing, collapsing every maximal
non-alphanumeric run to a dash, trimming dashes and truncating to 32
characters; the literal examples hold; and any name whose derivation is
empty is answered with HTTP 400 and no change to the Store. -/
theorem pie_slug_derivation :
    (∀ name : String,
      slugifyPieName name =
        String.mk (List.take 32 (trimDashes (collapseRuns false (lowerChars name.data))))) ∧
    slugifyPieName (" Hello, World! ") = ("hello-world") ∧
    slugifyPieName ("***") = ("") ∧
    (∀ (name : String) (st : Store) (newId auditId now : String),
      slugifyPieName name = ("") →
        postPiesStatus (handleCreatePie (some name) st newId auditId now).1 = 400 ∧
        (handleCreatePie (some name) st newId auditId now).2 = st) := by
  refine ⟨fun _ => rfl, by decide, by decide, ?_⟩
  intro name st newId auditId now hs
  unfold handleCreatePie
  by_cases h0 : name.length = 0
  · simp [h0, postPiesStatus]
  · simp [h0, hs, postPiesStatus]

theorem pie_slug_derivation_witness :
    slugifyPieName ("***") = ("") ∧
    postPiesStatus (handleCreatePie (some ("***")) emptyStore ("id1") ("id2") ("t")).1 = 400 ∧
    (handleCreatePie (some ("***")) emptyStore ("id1") ("id2") ("t")).2 = emptyStore :=
  ⟨by decide,
   pie_slug_derivation.2.2.2 ("***") emptyStore ("id1") ("id2") ("t") (by decide)⟩

/-- C6: the express app of createDaemon registers no route for DELETE
under v1 pies, so such a request falls through to the express default
404 rather than the documented 200; the DELETE route for slices shows
the model matches the registered table. -/
theorem no_delete_pies_route :
    daemonHandles Method.delete [("v1"), ("pies"), ("my-app")] = false ∧
    daemonHandles Method.delete [("v1"), ("slices"), ("s1")] = true ∧
    daemonHandles Method.post [("v1"), ("pies")] = true := by
  decide

/-- C7 counterexample: stopping a slice twice at distinct clock readings
differs from stopping it once, because the second call overwrites
stoppedAt with its own current time. -/
theorem stop_twice_ne_stop_once :
    stopSlice (stopSlice c7store ("s1") ("2026-02-20T00:00:00.000Z")) ("s1")
        ("2026-02-20T00:00:01.000Z") ≠
      stopSlice c7store ("s1") ("2026-02-20T00:00:00.000Z") := by
  decide

/-- C7 amended: a second stopSlice absorbs the first, so the final state
equals a single stopSlice executed at the second call time; with equal
clock readings the two executions agree exactly. -/
theorem setSliceStatusRow_absorb (sliceId t1 t2 : String) (s : SliceRow) :
    setSliceStatusRow sliceId SliceStatus.stopped t2
        (setSliceStatusRow sliceId SliceStatus.stopped t1 s) =
      setSliceStatusRow sliceId SliceStatus.stopped t2 s := by
  unfold setSliceStatusRow
  by_cases h : s.id == sliceId <;> simp [h]

theorem stop_stop_absorb (st : Store) (sliceId t1 t2 : String) :
    stopSlice (stopSlice st sliceId t1) sliceId t2 = stopSlice st sliceId t2 := by
  unfold stopSlice updateSliceStatus
  have key : ∀ l : List SliceRow,
      List.map (setSliceStatusRow sliceId SliceStatus.stopped t2)
          (List.map (setSliceStatusRow sliceId SliceStatus.stopped t1) l) =
        List.map (setSliceStatusRow sliceId SliceStatus.stopped t2) l := by
    intro l
    induction l with
    | nil => rfl
    | cons a as ih => simp [ih, setSliceStatusRow_absorb]
  exact congrArg (fun l => { st with slices := l }) (key st.slices)

/-- C8: the upstream x-forwarded-proto is the lowercased trimmed first
comma-separated token of the incoming header, http when absent or
empty; the upstream x-forwarded-port is the port embedded in the
original Host header when one parses (bracketed IPv6 included), else
443 for https and 80 otherwise; with the bracketed IPv6 and the
HTTPS-comma-list boundary examples. -/
theorem forwarded_headers_spec :
    normalizeForwardedProto Option.none = ("http") ∧
    normalizeForwardedProto (some ("")) = ("http") ∧
    (∀ s : String, normalizeForwardedProto (some s) =
      (if jsLower (jsTrim ((jsSplit ',' s).headD (""))) = ("") then ("http")
       else jsLower (jsTrim ((jsSplit ',' s).headD (""))))) ∧
    (∀ (hostHeader : String) (protoHeader : Option String) (p : String),
      parsePortFromHostHeader hostHeader = some p →
        (buildForwardedHeaders hostHeader protoHeader).2 = p) ∧
    (∀ (hostHeader : String) (protoHeader : Option String),
      parsePortFromHostHeader hostHeader = Option.none →
        (buildForwardedHeaders hostHeader protoHeader).2 =
          (if normalizeForwardedProto protoHeader = ("https") then ("443") else ("80"))) ∧
    parsePortFromHostHeader ("[::1]:4080") = some ("4080") ∧
    buildForwardedHeaders ("my-app-s1.localtest.me") (some ("HTTPS, http")) =
      (("https"), ("443")) := by
  refine ⟨by decide, by decide, fun s => rfl, ?_, ?_, by decide, by decide⟩
  · intro hostHeader protoHeader p hp
    unfold buildForwardedHeaders
    rw [hp]
  · intro hostHeader protoHeader hp
    unfold buildForwardedHeaders
    rw [hp]

theorem forwarded_headers_spec_witness :
    (buildForwardedHeaders ("[::1]:4080") (some ("HTTPS, http"))).2 = ("4080") ∧
    (buildForwardedHeaders ("my-app-s1.localtest.me") (some ("HTTPS, http"))).2 =
      (if normalizeForwardedProto (some ("HTTPS, http")) = ("https") then ("443")
       else ("80")) :=
  ⟨forwarded_headers_spec.2.2.2.1 ("[::1]:4080") (some ("HTTPS, http")) ("4080") (by decide),
   forwarded_headers_spec.2.2.2.2.1 ("my-app-s1.localtest.me") (some ("HTTPS, http"))
     (by decide)⟩

/-- C9 counterexample: a legacy database with a dangling slice
reference migrates, the transaction commits, and only then does the
foreign-key check raise; the content left behind is the migrated
content, not the pre-migration content the claim requires. -/
theorem migration_commits_before_check :
    (migrateLegacyPathColumns c9legacyDb).1.isSome = true ∧
    (migrateLegacyPathColumns c9legacyDb).2 ≠ c9legacyDb := by
  decide

/-- C9 amended: the re-creation transaction commits before referential
integrity is verified; a failing check makes createDatabase raise
without bumping user_version, but the database content observed after
the failure is the committed re-creation, not the pre-migration
state. -/
theorem migration_check_after_commit (db : MigDb) (uv : Nat)
    (hleg : (!db.piesHasRepoPath && !db.slicesHaveLegacyColumns) = false)
    (hfk : (fkViolations (recreateTables db)).length ≠ 0)
    (huv : uv < 2) :
    createDatabase db uv =
      (some ("Foreign key check failed after schema migration"), (recreateTables db, uv)) := by
  unfold createDatabase migrateLegacyPathColumns
  simp [hleg, hfk, huv]

theorem migration_check_after_commit_witness :
    createDatabase c9legacyDb 1 =
      (some ("Foreign key check failed after schema migration"),
       (recreateTables c9legacyDb, 1)) :=
  migration_check_after_commit c9legacyDb 1 (by decide) (by decide) (by decide)

theorem synthesizedHost_ne_bracket (h : String) (hs : synthesizedHost h) :
    h ≠ ("[") := by
  obtain ⟨slug, ordinal, suffix, key, protocol, expose, heq⟩ := hs
  unfold routeHostFor at heq
  by_cases hp : protocol = Protocol.http
  · rw [if_pos hp] at heq
    by_cases he : expose = Expose.primary
    · rw [if_pos he] at heq
      cases heq
      exact mkHost_ne_bracket slug ordinal suffix
    · rw [if_neg he] at heq
      by_cases hsub : expose = Expose.subdomain
      · rw [if_pos hsub] at heq
        cases heq
        exact subdomainHost_ne_bracket key slug ordinal suffix
      · rw [if_neg hsub] at heq
        cases heq
  · rw [if_neg hp] at heq
    cases heq

/-- C10: the proxy lookup key is the lowercased trimmed text of the
Host header strictly before its first colon; a bracketed IPv6 Host such
as the literal below therefore yields the one-character key that no
orchestrator-synthesized route host can equal, and the proxy answers
404 on any route table whose hosts are all synthesized. -/
theorem bracketed_host_lookup_404 :
    normalizeHost (some ("[::1]:4080")) = ("[") ∧
    (∀ h : String, synthesizedHost h → h ≠ ("[")) ∧
    (∀ routes : List HostRoute,
      (∀ r ∈ routes, synthesizedHost r.host) →
        proxyDecide routes (some ("[::1]:4080")) = ProxyOutcome.reject 404) := by
  refine ⟨by decide, synthesizedHost_ne_bracket, ?_⟩
  intro routes hall
  unfold proxyDecide
  have hn : normalizeHost (some ("[::1]:4080")) = ("[") := by decide
  rw [hn]
  have hlook : getHostRoute routes ("[") = Option.none := by
    unfold getHostRoute
    rw [List.find?_eq_none]
    intro r hr
    have := synthesizedHost_ne_bracket r.host (hall r hr)
    simpa using this
  rw [if_neg (by decide), hlook]

theorem bracketed_host_lookup_404_witness :
    proxyDecide c10routes (some ("[::1]:4080")) = ProxyOutcome.reject 404 :=
  bracketed_host_lookup_404.2.2 c10routes (by
    intro r hr
    have hr1 : r = c10route := by
      simpa [c10routes] using hr
    subst hr1
    exact ⟨("my-app"), 1, ("localtest.me"), ("r1"), Protocol.http, Expose.primary, by decide⟩)

/-- C1 counterexample: a body that is exactly pieId and resources, with
the pie existing and the single resource valid, is rejected by the
schema because worktreePath is also required, and the route answers
400, not 201. -/
theorem create_slice_requires_worktree :
    parseCreateSliceRequest c1rawMissingWorktree = .error ("worktreePath: Required") ∧
    postSlicesStatus
      (handleCreateSlice id c1rawMissingWorktree storeMyApp ("localtest.me") 4080
        30000 45000 (fun _ => true) ("s1") [("rid1"), ("rid2")] ("a1") ("t1")).1 = 400 := by
  exact ⟨rfl, rfl⟩

/-- C1 amended: a body holding exactly pieId, worktreePath and
resources - pieId naming an existing pie, worktreePath non-empty,
resources a non-empty list of valid entries with unique keys and at
most one http primary - passes validation with branch defaulted to
main, and when the orchestrator call succeeds the route answers 201
with the created slice. -/
theorem create_slice_accepts_with_worktree
    (raw : RawCreateSliceRequest) (st st1 : Store) (pid w : String)
    (rs : List CreateRes) (pie : PieRow) (hostSuffix : String)
    (routerPort rangeStart rangeEnd : Nat) (probe : Nat → Bool)
    (sliceId : String) (resourceIds : List String) (auditId now : String)
    (resolve : String → String) (created : OrchOut)
    (hpid : raw.pieId = some pid) (hpidne : pid.length ≠ 0)
    (hw : raw.worktreePath = some w) (hwne : w.length ≠ 0)
    (hbr : raw.branch = Option.none)
    (hrs : raw.resources = some rs) (hrsne : rs.length ≠ 0)
    (hkeys : rs.all (fun x => validKey x.key) = true)
    (hnodup : (rs.map (fun x => x.key)).Nodup)
    (hprim : countPrimaryHttp rs ≤ 1)
    (hfind : findPieByIdOrSlug st pid = some pie)
    (horch : orchCreateSlice st pie (resolve w) ("main") rs hostSuffix routerPort
        rangeStart rangeEnd probe sliceId resourceIds now = (.ok created, st1)) :
    parseCreateSliceRequest raw =
      .ok { pieId := pid, worktreePath := w, branch := ("main"), resources := rs } ∧
    (handleCreateSlice resolve raw st hostSuffix routerPort rangeStart rangeEnd probe
        sliceId resourceIds auditId now).1 = .ok created ∧
    postSlicesStatus
      (handleCreateSlice resolve raw st hostSuffix routerPort rangeStart rangeEnd probe
        sliceId resourceIds auditId now).1 = 201 := by
  have hmain : ¬ ("main" : String).length = 0 := by decide
  have hparse : parseCreateSliceRequest raw =
      .ok { pieId := pid, worktreePath := w, branch := ("main"), resources := rs } := by
    unfold parseCreateSliceRequest
    rw [hpid, hw, hbr, hrs]
    simp [hpidne, hwne, hrsne, hkeys, hnodup, Nat.not_lt.mpr hprim, hmain]
  have hhandler :
      (handleCreateSlice resolve raw st hostSuffix routerPort rangeStart rangeEnd probe
        sliceId resourceIds auditId now).1 = .ok created := by
    unfold handleCreateSlice
    rw [hparse]
    simp only [hfind, horch]
  exact ⟨hparse, hhandler, by rw [hhandler]; rfl⟩

theorem create_slice_accepts_with_worktree_witness :
    parseCreateSliceRequest c1rawGood =
      .ok { pieId := ("my-app"), worktreePath := ("/tmp/wt"), branch := ("main"),
            resources :=
              [{ key := ("r1"), protocol := Protocol.http, expose := Expose.primary },
               { key := ("r2"), protocol := Protocol.tcp, expose := Expose.none }] } ∧
    (handleCreateSlice id c1rawGood storeMyApp ("localtest.me") 4080 30000 45000
        (fun _ => true) ("s1") [("rid1"), ("rid2")] ("a1") ("t1")).1 = .ok c1created ∧
    postSlicesStatus
      (handleCreateSlice id c1rawGood storeMyApp ("localtest.me") 4080 30000 45000
        (fun _ => true) ("s1") [("rid1"), ("rid2")] ("a1") ("t1")).1 = 201 :=
  create_slice_accepts_with_worktree c1rawGood storeMyApp
    { c1storeAfter with audits := [] } ("my-app") ("/tmp/wt") _ pieMyApp
    ("localtest.me") 4080 30000 45000 (fun _ => true) ("s1") [("rid1"), ("rid2")]
    ("a1") ("t1") id c1created rfl (by decide) rfl (by decide) rfl rfl (by decide)
    (by decide) (by decide) (by decide) (by decide) (by rfl)

/-- C2 counterexample: an orchestrator call whose addSliceResources
batch hits the UNIQUE slice_id, key pair fails, yet the Store afterwards
differs from the Store before the call: the slice row inserted in step
four of createSlice survives, because no transaction encloses the
method. -/
theorem failed_create_leaves_slice_row :
    isErr c2call.1 = true ∧
    c2call.1 = .error ("UNIQUE constraint failed: slice_resources.slice_id, slice_resources.key") ∧
    c2call.2 ≠ storeMyApp ∧
    c2call.2.slices.length = 1 := by
  refine ⟨by decide, by rfl, by decide, by decide⟩

theorem repoCreateSlice_ok_state (st : Store) (pieId : String) (ordinal : Nat)
    (host w b : String) (status : SliceStatus) (newId now : String)
    (slice : SliceRow) (st1 : Store)
    (hcs : repoCreateSlice st pieId ordinal host w b status newId now = .ok (slice, st1)) :
    st1 = { st with slices := st.slices ++ [slice] } := by
  unfold repoCreateSlice at hcs
  split_ifs at hcs
  injection hcs with h
  injection h with h1 h2
  rw [← h2, ← h1]

/-- C2 amended: port-range exhaustion and slice-row conflicts strike
before any write and leave the Store exactly as it was; a failure
inside addSliceResources rolls back every resource row of the call but
keeps the slice row inserted earlier in the call, so the Store after
any failed call has unchanged pies, resources and audits, and either
unchanged slices or the slices plus the one new row. -/
theorem create_slice_failure_atomicity (st : Store) (pie : PieRow)
    (w b : String) (rs : List CreateRes) (hostSuffix : String)
    (routerPort rangeStart rangeEnd : Nat) (probe : Nat → Bool)
    (sliceId : String) (resourceIds : List String) (now : String) :
    (isErr (allocateMany rangeStart rangeEnd probe rs.length (getAllocatedPorts st)) = true →
      (orchCreateSlice st pie w b rs hostSuffix routerPort rangeStart rangeEnd probe
        sliceId resourceIds now).2 = st) ∧
    (∀ ports : List Nat,
      allocateMany rangeStart rangeEnd probe rs.length (getAllocatedPorts st) = .ok ports →
      isErr (repoCreateSlice st pie.id (getNextSliceOrdinal st pie.id)
        (mkHost pie.slug (getNextSliceOrdinal st pie.id) hostSuffix) w b
        SliceStatus.running sliceId now) = true →
      (orchCreateSlice st pie w b rs hostSuffix routerPort rangeStart rangeEnd probe
        sliceId resourceIds now).2 = st) ∧
    (isErr (orchCreateSlice st pie w b rs hostSuffix routerPort rangeStart rangeEnd probe
        sliceId resourceIds now).1 = true →
      (orchCreateSlice st pie w b rs hostSuffix routerPort rangeStart rangeEnd probe
        sliceId resourceIds now).2.pies = st.pies ∧
      (orchCreateSlice st pie w b rs hostSuffix routerPort rangeStart rangeEnd probe
        sliceId resourceIds now).2.resources = st.resources ∧
      (orchCreateSlice st pie w b rs hostSuffix routerPort rangeStart rangeEnd probe
        sliceId resourceIds now).2.audits = st.audits ∧
      ((orchCreateSlice st pie w b rs hostSuffix routerPort rangeStart rangeEnd probe
          sliceId resourceIds now).2.slices = st.slices ∨
        ∃ row : SliceRow,
          (orchCreateSlice st pie w b rs hostSuffix routerPort rangeStart rangeEnd probe
            sliceId resourceIds now).2.slices = st.slices ++ [row])) := by
  refine ⟨?_, ?_, ?_⟩
  · -- port-range exhaustion: nothing has been written yet
    intro hfail
    cases halloc : allocateMany rangeStart rangeEnd probe rs.length (getAllocatedPorts st) with
    | error e => simp only [orchCreateSlice, halloc]
    | ok ports => rw [halloc] at hfail; simp [isErr] at hfail
  · -- slice-row conflict: the single INSERT fails atomically
    intro ports halloc hfail
    cases hcs : repoCreateSlice st pie.id (getNextSliceOrdinal st pie.id)
        (mkHost pie.slug (getNextSliceOrdinal st pie.id) hostSuffix) w b
        SliceStatus.running sliceId now with
    | error e => simp only [orchCreateSlice, halloc, hcs]
    | ok pair => rw [hcs] at hfail; simp [isErr] at hfail
  · -- any failing call leaves at most the one new slice row behind
    intro hfail
    cases halloc : allocateMany rangeStart rangeEnd probe rs.length (getAllocatedPorts st) with
    | error e =>
        simp [orchCreateSlice, halloc]
    | ok ports =>
      cases hcs : repoCreateSlice st pie.id (getNextSliceOrdinal st pie.id)
          (mkHost pie.slug (getNextSliceOrdinal st pie.id) hostSuffix) w b
          SliceStatus.running sliceId now with
      | error e =>
          simp [orchCreateSlice, halloc, hcs]
      | ok pair =>
        obtain ⟨slice, st1⟩ := pair
        have hrow := repoCreateSlice_ok_state _ _ _ _ _ _ _ _ _ _ _ hcs
        cases hassign : assignAll
            (mkHost pie.slug (getNextSliceOrdinal st pie.id) hostSuffix)
            routerPort rs ports with
        | error e =>
            simp only [orchCreateSlice, halloc, hcs, hassign]
            exact ⟨by rw [hrow], by rw [hrow], by rw [hrow], Or.inr ⟨slice, by rw [hrow]⟩⟩
        | ok assigned =>
          cases hadd : addSliceResources st1 slice.id
              (assigned.map toResourceInput) resourceIds now with
          | error e =>
              simp only [orchCreateSlice, halloc, hcs, hassign, hadd]
              exact ⟨by rw [hrow], by rw [hrow], by rw [hrow], Or.inr ⟨slice, by rw [hrow]⟩⟩
          | ok st2 =>
              exfalso
              simp [orchCreateSlice, halloc, hcs, hassign, hadd, isErr] at hfail

theorem create_slice_failure_atomicity_witness :
    c2call.2.pies = storeMyApp.pies ∧
    c2call.2.resources = storeMyApp.resources ∧
    c2call.2.audits = storeMyApp.audits ∧
    (c2call.2.slices = storeMyApp.slices ∨
      ∃ row : SliceRow, c2call.2.slices = storeMyApp.slices ++ [row]) :=
  (create_slice_failure_atomicity storeMyApp pieMyApp ("/tmp/wt") ("main") c2dupRes
    ("localtest.me") 4080 30000 45000 (fun _ => true) ("s1") [("i1"), ("i2")]
    ("t1")).2.2 (by decide)

theorem allocAux_ok_inv (probe : Nat → Bool) (count : Nat) :
    ∀ (remaining port : Nat) (reserved acc l : List Nat),
      allocAux probe count remaining port reserved acc = .ok l →
      (∀ q ∈ acc, q < port) →
      List.Pairwise (· < ·) acc →
      l.length = count ∧ List.Pairwise (· < ·) l ∧
        ∃ rest : List Nat, l = acc ++ rest ∧
          ∀ q ∈ rest, port ≤ q ∧ q < port + remaining ∧ q ∉ reserved ∧ probe q = true := by
  intro remaining
  induction remaining with
  | zero =>
    intro port reserved acc l h hacc hsort
    simp [allocAux] at h
  | succ n ih =>
    intro port reserved acc l h hacc hsort
    have hsortp : List.Pairwise (· < ·) (acc ++ [port]) := by
      refine List.pairwise_append.mpr ⟨hsort, by simp, ?_⟩
      intro a ha b hb
      simp at hb
      subst hb
      exact hacc a ha
    simp only [allocAux] at h
    split_ifs at h with h1 h2 h3
    · -- reserved candidate skipped
      obtain ⟨hlen, hsortl, rest, hrest, hprops⟩ :=
        ih (port + 1) reserved acc l h (fun q hq => Nat.lt_succ_of_lt (hacc q hq)) hsort
      refine ⟨hlen, hsortl, rest, hrest, ?_⟩
      intro q hq
      obtain ⟨hq1, hq2, hq3, hq4⟩ := hprops q hq
      exact ⟨by omega, by omega, hq3, hq4⟩
    · -- probed free, count reached: success leaf
      injection h with h
      subst h
      refine ⟨h3, hsortp, [port], rfl, ?_⟩
      intro q hq
      simp at hq
      rw [hq]
      refine ⟨Nat.le_refl port, by omega, ?_, h2⟩
      simpa using h1
    · -- probed free, count not yet reached
      obtain ⟨hlen, hsortl, rest, hrest, hprops⟩ :=
        ih (port + 1) (port :: reserved) (acc ++ [port]) l h
          (by
            intro q hq
            rcases List.mem_append.mp hq with hq | hq
            · exact Nat.lt_succ_of_lt (hacc q hq)
            · simp at hq
              omega)
          hsortp
      refine ⟨hlen, hsortl, port :: rest, by simpa [List.append_assoc] using hrest, ?_⟩
      intro q hq
      rcases List.mem_cons.mp hq with hq | hq
      · rw [hq]
        refine ⟨Nat.le_refl port, by omega, by simpa using h1, h2⟩
      · obtain ⟨hq1, hq2, hq3, hq4⟩ := hprops q hq
        have hq3r : q ∉ reserved := fun hmem => hq3 (List.mem_cons_of_mem _ hmem)
        exact ⟨by omega, by omega, hq3r, hq4⟩
    · -- probe rejected the candidate
      obtain ⟨hlen, hsortl, rest, hrest, hprops⟩ :=
        ih (port + 1) reserved acc l h (fun q hq => Nat.lt_succ_of_lt (hacc q hq)) hsort
      refine ⟨hlen, hsortl, rest, hrest, ?_⟩
      intro q hq
      obtain ⟨hq1, hq2, hq3, hq4⟩ := hprops q hq
      exact ⟨by omega, by omega, hq3, hq4⟩

theorem allocAux_err_msg (probe : Nat → Bool) (count : Nat) :
    ∀ (remaining port : Nat) (reserved acc : List Nat) (e : String),
      allocAux probe count remaining port reserved acc = .error e → e = exhaustMsg count := by
  intro remaining
  induction remaining with
  | zero =>
    intro port reserved acc e h
    simp only [allocAux, Except.error.injEq] at h
    exact h.symm
  | succ n ih =>
    intro port reserved acc e h
    simp only [allocAux] at h
    split_ifs at h with h1 h2 h3
    · exact ih (port + 1) reserved acc e h
    · exact ih (port + 1) (port :: reserved) (acc ++ [port]) e h
    · exact ih (port + 1) reserved acc e h

/-- C3: for positive count, a successful allocateMany returns exactly
count ports, pairwise strictly ascending (hence distinct and in
ascending order), each inside the configured range, outside the
reserved set and accepted by the availability probe; and every failure
carries the exhausted-range error message. -/
theorem allocateMany_spec (rangeStart rangeEnd count : Nat) (probe : Nat → Bool)
    (reserved : List Nat) (hc : count ≠ 0) :
    (∀ l, allocateMany rangeStart rangeEnd probe count reserved = .ok l →
      l.length = count ∧ List.Pairwise (· < ·) l ∧
      ∀ p ∈ l, rangeStart ≤ p ∧ p ≤ rangeEnd ∧ p ∉ reserved ∧ probe p = true) ∧
    (∀ e, allocateMany rangeStart rangeEnd probe count reserved = .error e →
      e = exhaustMsg count) := by
  constructor
  · intro l hok
    unfold allocateMany at hok
    rw [if_neg hc] at hok
    have hnz : rangeEnd + 1 - rangeStart ≠ 0 := by
      intro h0
      rw [h0] at hok
      simp [allocAux] at hok
    obtain ⟨hlen, hsortl, rest, hrest, hprops⟩ :=
      allocAux_ok_inv probe count (rangeEnd + 1 - rangeStart) rangeStart reserved [] l hok
        (by simp) (by simp)
    refine ⟨hlen, hsortl, ?_⟩
    intro p hp
    have hp2 : p ∈ rest := by simpa [hrest] using hp
    obtain ⟨hp3, hp4, hp5, hp6⟩ := hprops p hp2
    exact ⟨hp3, by omega, hp5, hp6⟩
  · intro e herr
    unfold allocateMany at herr
    rw [if_neg hc] at herr
    exact allocAux_err_msg probe count _ _ _ _ _ herr

theorem allocateMany_spec_witness :
    ([3005, 3006, 3007] : List Nat).length = 3 ∧
    List.Pairwise (· < ·) ([3005, 3006, 3007] : List Nat) ∧
    (∀ p ∈ ([3005, 3006, 3007] : List Nat),
      3000 ≤ p ∧ p ≤ 3007 ∧ p ∉ ([3000, 3001, 3002, 3004] : List Nat) ∧
        (fun q => !(q == 3003)) p = true) :=
  (allocateMany_spec 3000 3007 3 (fun q => !(q == 3003)) [3000, 3001, 3002, 3004]
    (by decide)).1 [3005, 3006, 3007] (by rfl)

end Bakery
